import Mathlib

/-!
# Actor framework core: dispatch guard, send paths and sync-failure handling

Shallow embedding of

* `cppa/detail/recursive_queue_node.hpp` (queue node and its dispatch guard),
* `libcaf_core/caf/local_actor.hpp` (send paths, sync handlers, behaviour queries),
* `libcaf_core/caf/typed_response_promise.hpp` (typed reply handles),
* `src/actor_addr.cpp` (comparison of actor addresses).

Pointers are addresses (`Nat`), a null pointer is `none`.  Calls that leave the
translated sources (a virtual `enqueue` on the destination, the call of a
`std::function`, `quit`, `request_sync_timeout_msg`) are recorded, in program
order, in a list of effects.
-/

set_option autoImplicit false

/-! ## Definitions -/

namespace cppa.detail

/-- Struct `recursive_queue_node`: intrusive next pointer, the `marked` flag
("denotes if this node is currently processed"), sender and message. -/
structure recursive_queue_node where
  next : Option Nat
  marked : Bool
  sender : Option Nat
  msg : List Nat
deriving DecidableEq

/-- Default constructor `recursive_queue_node()`. -/
def recursive_queue_node.default_ctor : recursive_queue_node :=
  { next := none, marked := false, sender := none, msg := [] }

/-- Constructor `recursive_queue_node(actor* from, any_tuple content)`. -/
def recursive_queue_node.ctor (src : Option Nat) (content : List Nat) : recursive_queue_node :=
  { next := none, marked := false, sender := src, msg := content }

/-- Move constructor `recursive_queue_node(recursive_queue_node&& other)`. -/
def recursive_queue_node.move_ctor (other : recursive_queue_node) : recursive_queue_node :=
  { next := none, marked := false, sender := other.sender, msg := other.msg }

/-- Memory holding queue nodes: every address carries a node. -/
abbrev node_heap := Nat → recursive_queue_node

/-- Struct `recursive_queue_node::guard`: its only member is `m_node`. -/
structure guard where
  m_node : Option Nat
deriving DecidableEq

/-- Write `value` to `ptr->marked`. -/
def set_marked (h : node_heap) (ptr : Nat) (value : Bool) : node_heap :=
  Function.update h ptr { h ptr with marked := value }

/-- Constructor `guard(recursive_queue_node* ptr) : m_node(ptr) { ptr->marked = true; }`.
The pointer is dereferenced, hence non-null. -/
def guard.ctor (h : node_heap) (ptr : Nat) : node_heap × guard :=
  (set_marked h ptr true, { m_node := some ptr })

/-- Member `release() { m_node = nullptr; }`. -/
def guard.release (g : guard) : guard :=
  { g with m_node := none }

/-- Destructor `~guard() { if (m_node) m_node->marked = false; }`. -/
def guard.dtor (h : node_heap) (g : guard) : node_heap :=
  match g.m_node with
  | some p => set_marked h p false
  | none => h

/-- One guard scope on the node at `ptr`: construct the guard, call `release()`
`releases` times, destroy the guard. -/
def guard_scope (h : node_heap) (ptr : Nat) (releases : Nat) : node_heap :=
  guard.dtor (guard.ctor h ptr).1 (Nat.iterate guard.release releases (guard.ctor h ptr).2)

end cppa.detail

namespace cppa

/-- Value of an `intptr_t` of `w` bits holding the integer `z`: two's
complement, the representative of `z` modulo `2 ^ w` between `-2 ^ (w - 1)`
and `2 ^ (w - 1) - 1`. -/
def intptr_t (w : Nat) (z : Int) : Int :=
  Int.bmod z (2 ^ w)

/-- A pointer of `w` bits: its address; `nullptr` is address 0. -/
abbrev pointer (w : Nat) := Fin (2 ^ w)

/-- The null pointer. -/
def nullptr (w : Nat) : pointer w :=
  ⟨0, Nat.pos_pow_of_pos w (by decide)⟩

/-- Cast `reinterpret_cast<intptr_t>(p)`. -/
def reinterpret_cast (w : Nat) (p : pointer w) : Int :=
  intptr_t w (p.val : Int)

/-- Function `compare_impl(lhs, rhs)`:
`reinterpret_cast<intptr_t>(lhs) - reinterpret_cast<intptr_t>(rhs)`, the
subtraction being that of `intptr_t`. -/
def compare_impl (w : Nat) (lhs rhs : pointer w) : Int :=
  intptr_t w (reinterpret_cast w lhs - reinterpret_cast w rhs)

/-- An `actor` handle: the pointer to the actor it holds. -/
structure actor (w : Nat) where
  m_ptr : pointer w

/-- Modelled from the spec: `detail::raw_access::get(hdl)` of
`cppa/detail/raw_access.hpp`, which is not among the sources: the pointer to
the actor that the handle refers to. -/
def detail.raw_access.get {w : Nat} (hdl : actor w) : pointer w :=
  hdl.m_ptr

/-- An `actor_addr`: `m_ops.m_ptr`, the pointer to the actor. -/
structure actor_addr (w : Nat) where
  m_ptr : pointer w

/-- Constructor `actor_addr(const actor& other) : m_ops(raw_access::get(other))`. -/
def actor_addr.of_actor {w : Nat} (other : actor w) : actor_addr w :=
  { m_ptr := detail.raw_access.get other }

/-- Constructor `actor_addr(const invalid_actor_addr_t&) : m_ops(nullptr)`. -/
def actor_addr.invalid (w : Nat) : actor_addr w :=
  { m_ptr := nullptr w }

/-- Constructor `actor_addr(abstract_actor* ptr) : m_ops(ptr)`. -/
def actor_addr.of_ptr {w : Nat} (ptr : pointer w) : actor_addr w :=
  { m_ptr := ptr }

/-- Conversion `operator bool()`: `static_cast<bool>(m_ops.m_ptr)`. -/
def actor_addr.to_bool {w : Nat} (self : actor_addr w) : Bool :=
  decide (self.m_ptr ≠ nullptr w)

/-- Operator `operator!()`: `!(m_ops.m_ptr)`. -/
def actor_addr.not {w : Nat} (self : actor_addr w) : Bool :=
  decide (self.m_ptr = nullptr w)

/-- Overload `compare(const actor& other)`:
`compare_impl(m_ops.m_ptr.get(), detail::raw_access::get(other))`. -/
def actor_addr.compare_actor {w : Nat} (self : actor_addr w) (other : actor w) : Int :=
  compare_impl w self.m_ptr (detail.raw_access.get other)

/-- Overload `compare(const actor_addr& other)`:
`compare_impl(m_ops.m_ptr.get(), other.m_ops.m_ptr.get())`. -/
def actor_addr.compare {w : Nat} (self other : actor_addr w) : Int :=
  compare_impl w self.m_ptr other.m_ptr

/-- Overload `compare(const local_actor* other)`:
`compare_impl(m_ops.m_ptr.get(), other)`. -/
def actor_addr.compare_local_actor {w : Nat} (self : actor_addr w) (other : pointer w) :
    Int :=
  compare_impl w self.m_ptr other

end cppa

namespace caf

/-- Modelled from the spec: `caf/message_priority.hpp` is not among the
sources; the spec gives a message id "a two-bit priority". -/
abbrev message_priority := Fin 4

/-- Modelled from the spec: the "flag distinguishing asynchronous, request, and
response messages" of a message id (`caf/message_id.hpp` is not among the
sources). -/
inductive message_kind where
  | asynchronous
  | request
  | response
deriving DecidableEq

/-- Modelled from the spec: `message_id` of `caf/message_id.hpp`, which is not
among the sources: "a 64-bit value carrying (a) a monotonic request sequence
number within an actor, (b) a two-bit priority, and (c) a flag distinguishing
asynchronous, request, and response messages".  The three parts are kept as
fields; the spec fixes no bit layout. -/
structure message_id where
  seq : Nat
  priority : message_priority
  kind : message_kind
deriving DecidableEq

/-- Modelled from the spec: the default `message_id()`, the value 0: sequence
number 0, priority 0, neither the request nor the response flag. -/
def message_id.zero : message_id :=
  { seq := 0, priority := 0, kind := message_kind.asynchronous }

/-- Modelled from the spec: `message_id::is_request()`, the flag says request. -/
def message_id.is_request (m : message_id) : Bool :=
  decide (m.kind = message_kind.request)

/-- Modelled from the spec: `message_id::is_response()`, the flag says response. -/
def message_id.is_response (m : message_id) : Bool :=
  decide (m.kind = message_kind.response)

/-- Modelled from the spec: `message_id::response_id()`: "the response id is the
same numeric payload with the response bit flipped".  The sources apply it to
request ids only. -/
def message_id.response_id (m : message_id) : message_id :=
  { m with kind := message_kind.response }

/-- Modelled from the spec: the named exit reasons of `caf/exit_reason.hpp`,
which is not among the sources.  The spec lists UnhandledSyncTimeout and
UnhandledSyncFailure as separate error kinds; numeric codes are not given, so
the reasons stay symbolic. -/
inductive exit_reason where
  | normal
  | unhandled_sync_failure
  | unhandled_sync_timeout
  | user_defined (code : Nat)
deriving DecidableEq

/-- A `message`: the sequence of its (opaque) element values. -/
abbrev message := List Nat

/-- An `actor_addr`: the address of the actor, `none` when invalid. -/
abbrev actor_addr := Option Nat

/-- A `behavior`, identified by a name. -/
abbrev behavior := Nat

/-- A non-empty callable stored in a `std::function<void()>`, identified by a name. -/
abbrev callback := Nat

/-- A `duration`, as a count of time units. -/
abbrev duration := Nat

/-- Modelled from the spec: `mailbox_element` of `caf/mailbox_element.hpp`
(not among the sources): "{sender, mid, msg, next, marked}"; the members read
or written by `local_actor.hpp` are kept. -/
structure mailbox_element where
  sender : actor_addr
  mid : message_id
  msg : message
deriving DecidableEq

/-- Smart-pointer factory `mailbox_element::make_joint(sender, mid, x, xs...)`:
the element carrying the message built from `x, xs...`. -/
def mailbox_element.make_joint (sender : actor_addr) (mid : message_id)
    (x : Nat) (xs : List Nat) : mailbox_element :=
  { sender := sender, mid := mid, msg := x :: xs }

/-- A handle (`actor`, `typed_actor<...>`, `channel`): a possibly null pointer
to the channel it refers to. -/
structure handle where
  ptr : Option Nat
deriving DecidableEq

/-- Conversion `actor_cast<abstract_channel*>(dh)`. -/
def actor_cast (dh : handle) : Option Nat :=
  dh.ptr

/-- Operator `!dh` of a handle: true when the handle is invalid. -/
def handle.not (dh : handle) : Bool :=
  dh.ptr.isNone

/-- Exceptions thrown by the translated code. -/
inductive exception where
  | invalid_argument (what : String)
deriving DecidableEq

/-- Calls that leave the translated sources, recorded in program order. -/
inductive effect where
  | enqueue (dest : Nat) (element : mailbox_element) (host : Nat)
  | invoke (f : callback)
  | quit (reason : exit_reason)
  | request_sync_timeout_msg (dr : duration) (mid : message_id)
deriving DecidableEq

/-- Data members of `local_actor` (with `address()` and `host()` of its base
class).  `m_bhvr_stack` lists the stack bottom first, so `back()` is the last
entry; `m_pending_responses` is the `forward_list`, front first. -/
structure local_actor where
  address : actor_addr
  host : Nat
  m_last_request_id : message_id
  m_pending_responses : List (message_id × behavior)
  m_current_element : Option mailbox_element
  m_planned_exit_reason : Nat
  m_timeout_id : Nat
  m_bhvr_stack : List behavior
  m_mailbox : List mailbox_element
  m_sync_failure_handler : Option callback
  m_sync_timeout_handler : Option callback
deriving DecidableEq

/-- What a member function leaves behind: the value it returns or the exception
it throws, the actor afterwards, and the effects it caused. -/
structure outcome (α : Type) where
  result : Except exception α
  actor : local_actor
  effects : List effect

/-- Member `on_sync_timeout(fun) { m_sync_timeout_handler = std::move(fun); }`;
`none` is an empty `std::function`. -/
def local_actor.on_sync_timeout (a : local_actor) (f : Option callback) : local_actor :=
  { a with m_sync_timeout_handler := f }

/-- Member `on_sync_failure(fun) { m_sync_failure_handler = std::move(fun); }`. -/
def local_actor.on_sync_failure (a : local_actor) (f : Option callback) : local_actor :=
  { a with m_sync_failure_handler := f }

/-- Member `has_sync_failure_handler()`:
`static_cast<bool>(m_sync_failure_handler)`. -/
def local_actor.has_sync_failure_handler (a : local_actor) : Bool :=
  a.m_sync_failure_handler.isSome

/-- Member `on_sync_timeout_or_failure(fun)`:
`on_sync_timeout(fun); on_sync_failure(fun);`. -/
def local_actor.on_sync_timeout_or_failure (a : local_actor) (f : Option callback) :
    local_actor :=
  (a.on_sync_timeout f).on_sync_failure f

/-- Member `handle_sync_timeout()`: call `m_sync_timeout_handler` when it is
non-empty, else `quit(exit_reason::unhandled_sync_timeout)`. -/
def local_actor.handle_sync_timeout (a : local_actor) : outcome Unit :=
  match a.m_sync_timeout_handler with
  | some f => { result := .ok (), actor := a, effects := [effect.invoke f] }
  | none =>
    { result := .ok (), actor := a,
      effects := [effect.quit exit_reason.unhandled_sync_timeout] }

/-- Member `handle_sync_failure()`: call `m_sync_failure_handler` when it is
non-empty, else `quit(exit_reason::unhandled_sync_failure)`. -/
def local_actor.handle_sync_failure (a : local_actor) : outcome Unit :=
  match a.m_sync_failure_handler with
  | some f => { result := .ok (), actor := a, effects := [effect.invoke f] }
  | none =>
    { result := .ok (), actor := a,
      effects := [effect.quit exit_reason.unhandled_sync_failure] }

/-- Private template `send_impl(mid, dest, x, xs...)`: return at once when
`dest` is null, else one `dest->enqueue(make_joint(address(), mid, x, xs...),
host())`. -/
def local_actor.send_impl (a : local_actor) (mid : message_id) (dest : Option Nat)
    (x : Nat) (xs : List Nat) : outcome Unit :=
  match dest with
  | none => { result := .ok (), actor := a, effects := [] }
  | some d =>
    { result := .ok (), actor := a,
      effects := [effect.enqueue d (mailbox_element.make_joint a.address mid x xs) a.host] }

/-- Modelled from the spec: `local_actor::new_request_id(mp)`, declared in
`local_actor.hpp` and defined outside the sources: it "returns a fresh
MessageId with the request bit set", values "strictly increasing per actor";
`m_last_request_id` "identifies the ID of the last sent synchronous request". -/
def local_actor.new_request_id (a : local_actor) (mp : message_priority) :
    message_id × local_actor :=
  let fresh : message_id :=
    { seq := a.m_last_request_id.seq + 1, priority := mp, kind := message_kind.request }
  (fresh, { a with m_last_request_id := fresh })

/-- Member template `sync_send_impl(mp, dh, xs...)`: throw `std::invalid_argument`
when `!dh`; else take `req_id = new_request_id(mp)`, `send_impl(req_id,
actor_cast<abstract_channel*>(dh), xs...)`, and return `req_id.response_id()`. -/
def local_actor.sync_send_impl (a : local_actor) (mp : message_priority) (dh : handle)
    (x : Nat) (xs : List Nat) : outcome message_id :=
  if dh.not then
    { result := .error (exception.invalid_argument ("cannot sync_send to invalid_actor")),
      actor := a, effects := [] }
  else
    let req := a.new_request_id mp
    let sent := req.2.send_impl req.1 (actor_cast dh) x xs
    match sent.result with
    | .error e => { result := .error e, actor := sent.actor, effects := sent.effects }
    | .ok _ =>
      { result := .ok req.1.response_id, actor := sent.actor, effects := sent.effects }

/-- Member `get_response_id()`: with `mid = m_current_element->mid`,
`mid.is_request() ? mid.response_id() : message_id()`.  `none` stands for the
dereference of a null `m_current_element`. -/
def local_actor.get_response_id (a : local_actor) : Option message_id :=
  match a.m_current_element with
  | none => none
  | some e => some (if e.mid.is_request then e.mid.response_id else message_id.zero)

/-- Member `has_behavior()`:
`!m_bhvr_stack.empty() || !m_pending_responses.empty()`. -/
def local_actor.has_behavior (a : local_actor) : Bool :=
  !a.m_bhvr_stack.isEmpty || !a.m_pending_responses.isEmpty

/-- Number of `enqueue` calls in a list of effects. -/
def count_enqueues (es : List effect) : Nat :=
  (es.filter fun e => match e with
    | effect.enqueue _ _ _ => true
    | _ => false).length

/-- Number of `quit` calls in a list of effects. -/
def count_quits (es : List effect) : Nat :=
  (es.filter fun e => match e with
    | effect.quit _ => true
    | _ => false).length

/-- Number of calls of the callable `f` in a list of effects. -/
def count_invocations (f : callback) (es : List effect) : Nat :=
  (es.filter fun e => decide (e = effect.invoke f)).length

/-- A sample actor: no handlers, no behaviour, nothing sent yet. -/
def sample_actor : local_actor :=
  { address := some 1, host := 0, m_last_request_id := message_id.zero,
    m_pending_responses := [], m_current_element := none,
    m_planned_exit_reason := 0, m_timeout_id := 0, m_bhvr_stack := [],
    m_mailbox := [], m_sync_failure_handler := none, m_sync_timeout_handler := none }

/-- Member `request_sync_timeout_msg(dr, mid)`, declared in `local_actor.hpp`
and defined outside the sources: recorded as an effect. -/
def local_actor.request_sync_timeout_msg (a : local_actor) (dr : duration)
    (mid : message_id) : outcome Unit :=
  { result := .ok (), actor := a, effects := [effect.request_sync_timeout_msg dr mid] }

/-- Member template `timed_sync_send_impl(mp, dh, dr, xs...)`:
`result = sync_send_impl(mp, dh, xs...)`, then
`request_sync_timeout_msg(dr, result)`, then `return result`; an exception of
`sync_send_impl` leaves the function at once. -/
def local_actor.timed_sync_send_impl (a : local_actor) (mp : message_priority)
    (dh : handle) (dr : duration) (x : Nat) (xs : List Nat) : outcome message_id :=
  let sent := a.sync_send_impl mp dh x xs
  match sent.result with
  | .error e => { result := .error e, actor := sent.actor, effects := sent.effects }
  | .ok result =>
    let req := sent.actor.request_sync_timeout_msg dr result
    match req.result with
    | .error e =>
      { result := .error e, actor := req.actor, effects := sent.effects ++ req.effects }
    | .ok _ =>
      { result := .ok result, actor := req.actor, effects := sent.effects ++ req.effects }

/-- Modelled from the spec: `detail::behavior_stack` of
`caf/detail/behavior_stack.hpp`, which is not among the sources: a "LIFO of
Behavior values"; a push puts the new behavior on top, which is the back. -/
def behavior_stack.push_back (s : List behavior) (b : behavior) : List behavior :=
  s ++ [b]

/-- The container that `get_behavior()` reads. -/
inductive container_read where
  | pending_responses_front
  | bhvr_stack_back
deriving DecidableEq

/-- What `get_behavior()` does: the container it reads and the behavior found
there; `none` when the container read is empty (`front()` or `back()` of an
empty container is undefined). -/
structure behavior_access where
  read : container_read
  value : Option behavior
deriving DecidableEq

/-- Member `get_behavior()`: `m_pending_responses.front().second` when
`!m_pending_responses.empty()`, else `m_bhvr_stack.back()`. -/
def local_actor.get_behavior (a : local_actor) : behavior_access :=
  if !a.m_pending_responses.isEmpty then
    { read := container_read.pending_responses_front,
      value := a.m_pending_responses.head?.map Prod.snd }
  else
    { read := container_read.bhvr_stack_back, value := a.m_bhvr_stack.getLast? }

/-- Modelled from the spec: `response_promise` of `caf/response_promise.hpp`,
which is not among the sources: a "deferred reply handle": the requester, the
receiver of the reply and the id of the request. -/
structure response_promise where
  m_from : actor_addr
  m_to : actor_addr
  m_id : message_id
deriving DecidableEq

/-- Modelled from the spec: `response_promise::operator bool()`; the source
says the "handle is valid if it has a receiver". -/
def response_promise.to_bool (p : response_promise) : Bool :=
  p.m_to.isSome

/-- A call of `response_promise::deliver(msg)` on the promise `p`. -/
structure deliver_call where
  promise : response_promise
  msg : message
deriving DecidableEq

/-- Function `make_message(x)`: the message whose only element is `x`. -/
def make_message (x : Nat) : message :=
  [x]

/-- Class template `typed_response_promise<T>`: its member `m_promise`. -/
structure typed_response_promise where
  m_promise : response_promise
deriving DecidableEq

/-- Constructor `typed_response_promise(response_promise promise)
: m_promise(promise)`. -/
def typed_response_promise.ctor (promise : response_promise) : typed_response_promise :=
  { m_promise := promise }

/-- Conversion `operator bool()`: `static_cast<bool>(m_promise)`. -/
def typed_response_promise.to_bool (t : typed_response_promise) : Bool :=
  t.m_promise.to_bool

/-- Member `deliver(T what)`:
`m_promise.deliver(make_message(std::move(what)))`. -/
def typed_response_promise.deliver (t : typed_response_promise) (what : Nat) :
    List deliver_call :=
  [{ promise := t.m_promise, msg := make_message what }]

/-- An `either_or_t<L, R>`: its member `value`, a message. -/
structure either_or_t where
  value : message
deriving DecidableEq

/-- Specialisation `typed_response_promise<either_or_t<L, R>>`: its member
`m_promise`. -/
structure typed_response_promise_either where
  m_promise : response_promise
deriving DecidableEq

/-- Constructor of the specialisation: `m_promise(promise)`. -/
def typed_response_promise_either.ctor (promise : response_promise) :
    typed_response_promise_either :=
  { m_promise := promise }

/-- Conversion `operator bool()` of the specialisation:
`static_cast<bool>(m_promise)`. -/
def typed_response_promise_either.to_bool (t : typed_response_promise_either) : Bool :=
  t.m_promise.to_bool

/-- Member `deliver(either_or_t<L, R> what)` of the specialisation:
`m_promise.deliver(what.value)`. -/
def typed_response_promise_either.deliver (t : typed_response_promise_either)
    (what : either_or_t) : List deliver_call :=
  [{ promise := t.m_promise, msg := what.value }]

/-- Number of `request_sync_timeout_msg` calls in a list of effects. -/
def count_timeout_requests (es : List effect) : Nat :=
  (es.filter fun e => match e with
    | effect.request_sync_timeout_msg _ _ => true
    | _ => false).length

end caf

/-! ## Theorems -/

namespace cppa.detail

/-- Writing the flag of a node and reading it back gives the value written. -/
theorem set_marked_same (h : node_heap) (ptr : Nat) (b : Bool) :
    (set_marked h ptr b ptr).marked = b := by
  simp [set_marked]

/-- Writing the flag of one node leaves every other node as it was. -/
theorem set_marked_other (h : node_heap) (ptr q : Nat) (b : Bool) (hq : q ≠ ptr) :
    set_marked h ptr b q = h q := by
  simp [set_marked, Function.update_noteq hq]

/-- Once released, further calls of `release()` leave the guard empty. -/
theorem iterate_release_succ (n : Nat) (g : guard) :
    Nat.iterate guard.release (n + 1) g = { m_node := none } := by
  induction n generalizing g with
  | zero => rfl
  | succ k ih => rw [Function.iterate_succ_apply]; exact ih (guard.release g)

/-- C1: for every node `ptr` of every heap `h`, constructing a guard on it sets
`marked`, whatever it was before; and destroying that guard, never released,
clears `marked` in whatever heap `h2` the code run in between has left. -/
theorem guard_ctor_marks_dtor_clears (h h2 : node_heap) (ptr : Nat) :
    ((guard.ctor h ptr).1 ptr).marked = true
      ∧ (guard.dtor (guard.ctor h ptr).1 (guard.ctor h ptr).2 ptr).marked = false
      ∧ (guard.dtor h2 (guard.ctor h ptr).2 ptr).marked = false := by
  refine ⟨?_, ?_, ?_⟩ <;> simp [guard.ctor, guard.dtor, set_marked_same]

/-- C2, as stated, fails: on a fresh unmarked node at address 0 the guard is
constructed, released once and destroyed; the released guard refers to no node
and is gone, yet the node is still marked. -/
theorem released_guard_leaves_node_marked :
    (Nat.iterate guard.release 1 (guard.ctor (fun _ => recursive_queue_node.default_ctor) 0).2).m_node
        = none
      ∧ (guard_scope (fun _ => recursive_queue_node.default_ctor) 0 1 0).marked = true := by
  constructor
  · rfl
  · simp [guard_scope, guard.ctor, guard.dtor, guard.release, set_marked]

/-- C2, amended: in every guard scope (construct, `releases` calls of
`release()`, destroy) on the node `ptr`, the node is marked while the guard is
alive; a guard destroyed unreleased leaves it unmarked; a released guard writes
nothing on destruction, so the node stays marked; no other node is written. -/
theorem guard_scope_marked (h : node_heap) (ptr : Nat) (releases : Nat) :
    ((guard.ctor h ptr).1 ptr).marked = true
      ∧ (guard_scope h ptr releases ptr).marked = decide (releases ≠ 0)
      ∧ (∀ q, q ≠ ptr → guard_scope h ptr releases q = h q) := by
  refine ⟨by simp [guard.ctor, set_marked_same], ?_, ?_⟩
  · cases releases with
    | zero => simp [guard_scope, guard.ctor, guard.dtor, set_marked_same]
    | succ n =>
      rw [guard_scope, iterate_release_succ]
      simp [guard.ctor, guard.dtor, set_marked_same]
  · intro q hq
    cases releases with
    | zero => simp [guard_scope, guard.ctor, guard.dtor, set_marked_other _ _ _ _ hq]
    | succ n =>
      rw [guard_scope, iterate_release_succ]
      simp [guard.ctor, guard.dtor, set_marked_other _ _ _ _ hq]

end cppa.detail

namespace caf

/-- C3: for every message id and payload, `send_impl` with a null destination
returns normally, leaves the actor as it was and enqueues nothing; with a
non-null destination `d` it returns normally, leaves the actor as it was and
performs exactly one enqueue, on `d`, of the element made from the sender's
address, the id and the payload. -/
theorem send_impl_null_drops_else_one_enqueue (a : local_actor) (mid : message_id)
    (x : Nat) (xs : List Nat) :
    ((a.send_impl mid none x xs).result = .ok ()
        ∧ (a.send_impl mid none x xs).actor = a
        ∧ (a.send_impl mid none x xs).effects = [])
      ∧ ∀ d : Nat,
        (a.send_impl mid (some d) x xs).result = .ok ()
          ∧ (a.send_impl mid (some d) x xs).actor = a
          ∧ (a.send_impl mid (some d) x xs).effects
              = [effect.enqueue d (mailbox_element.make_joint a.address mid x xs) a.host]
          ∧ count_enqueues (a.send_impl mid (some d) x xs).effects = 1 := by
  refine ⟨⟨rfl, rfl, rfl⟩, fun d => ⟨rfl, rfl, rfl, rfl⟩⟩

/-- C4: `sync_send_impl` throws `std::invalid_argument` exactly when the
destination handle is invalid, and returns a message id normally exactly when
the handle is valid. -/
theorem sync_send_impl_throws_iff_invalid (a : local_actor) (mp : message_priority)
    (dh : handle) (x : Nat) (xs : List Nat) :
    ((a.sync_send_impl mp dh x xs).result
          = .error (exception.invalid_argument ("cannot sync_send to invalid_actor"))
        ↔ dh.not = true)
      ∧ ((∃ e, (a.sync_send_impl mp dh x xs).result = .error e) ↔ dh.not = true)
      ∧ ((∃ rid, (a.sync_send_impl mp dh x xs).result = .ok rid) ↔ dh.not = false) := by
  cases hp : dh.ptr <;>
    simp [local_actor.sync_send_impl, local_actor.send_impl, handle.not, actor_cast, hp]

/-- C5: for every valid destination `d` and priority `mp`, `sync_send_impl`
performs exactly one enqueue, on `d`, of an element whose id is the fresh
request id `req = new_request_id(mp)`; it returns `req.response_id()`, which has
the sequence number and priority of `req` and the response flag; `req` is a
request, is recorded as the last request id, and follows the previous one. -/
theorem sync_send_impl_enqueues_request_returns_response (a : local_actor)
    (mp : message_priority) (d : Nat) (x : Nat) (xs : List Nat) :
    (a.sync_send_impl mp { ptr := some d } x xs).effects
        = [effect.enqueue d
            (mailbox_element.make_joint a.address (a.new_request_id mp).1 x xs) a.host]
      ∧ count_enqueues (a.sync_send_impl mp { ptr := some d } x xs).effects = 1
      ∧ (a.sync_send_impl mp { ptr := some d } x xs).result
          = .ok (a.new_request_id mp).1.response_id
      ∧ (a.new_request_id mp).1.response_id.seq = (a.new_request_id mp).1.seq
      ∧ (a.new_request_id mp).1.response_id.priority = (a.new_request_id mp).1.priority
      ∧ (a.new_request_id mp).1.response_id.is_response = true
      ∧ (a.new_request_id mp).1.is_request = true
      ∧ (a.new_request_id mp).1.seq = a.m_last_request_id.seq + 1
      ∧ (a.sync_send_impl mp { ptr := some d } x xs).actor.m_last_request_id
          = (a.new_request_id mp).1 := by
  refine ⟨rfl, rfl, rfl, rfl, rfl, ?_, ?_, rfl, rfl⟩ <;>
    simp [message_id.is_response, message_id.is_request, message_id.response_id,
      local_actor.new_request_id]

/-- C6 fails on the code: an actor whose only handler was installed with
`on_sync_failure`, documented as setting "the handler for `timed_sync_send`
timeout messages", quits with `unhandled_sync_timeout` when its sync timeout is
handled; that handler is not run, and the exit reason is not
`unhandled_sync_failure`, with or without that handler. -/
theorem sync_timeout_does_not_run_failure_handler :
    ((sample_actor.on_sync_failure (some 7)).handle_sync_timeout).effects
        = [effect.quit exit_reason.unhandled_sync_timeout]
      ∧ count_invocations 7
          ((sample_actor.on_sync_failure (some 7)).handle_sync_timeout).effects = 0
      ∧ (sample_actor.handle_sync_timeout).effects
          ≠ [effect.quit exit_reason.unhandled_sync_failure] := by
  decide

/-- The effects of `handle_sync_timeout` for every actor: the callable stored by
`on_sync_timeout` is called if it is non-empty, and otherwise `quit` is called
with `unhandled_sync_timeout`; what `on_sync_failure` stored makes no
difference. -/
theorem handle_sync_timeout_uses_timeout_handler (a : local_actor) (f : callback)
    (g : Option callback) :
    ((a.on_sync_timeout (some f)).handle_sync_timeout).effects = [effect.invoke f]
      ∧ ((a.on_sync_timeout none).handle_sync_timeout).effects
          = [effect.quit exit_reason.unhandled_sync_timeout]
      ∧ ((a.on_sync_failure g).handle_sync_timeout).effects
          = (a.handle_sync_timeout).effects
      ∧ (((a.on_sync_timeout (some f)).on_sync_failure g).handle_sync_timeout).effects
          = [effect.invoke f]
      ∧ (((a.on_sync_timeout none).on_sync_failure g).handle_sync_timeout).effects
          = [effect.quit exit_reason.unhandled_sync_timeout] := by
  refine ⟨rfl, rfl, ?_, rfl, rfl⟩
  cases h : a.m_sync_timeout_handler <;>
    simp [local_actor.handle_sync_timeout, local_actor.on_sync_failure, h]

/-- C7: `handle_sync_timeout` quits with `unhandled_sync_timeout` exactly when
no sync-timeout handler is attached; it calls `quit` (with any reason) exactly
then; and a handler attached with `on_sync_timeout` is invoked exactly once,
as the only effect, with no `quit`. -/
theorem handle_sync_timeout_quits_iff_no_handler (a : local_actor) (f : callback) :
    (effect.quit exit_reason.unhandled_sync_timeout ∈ (a.handle_sync_timeout).effects
        ↔ a.m_sync_timeout_handler = none)
      ∧ (count_quits (a.handle_sync_timeout).effects = 1
        ↔ a.m_sync_timeout_handler = none)
      ∧ (count_quits (a.handle_sync_timeout).effects = 0
        ↔ a.m_sync_timeout_handler ≠ none)
      ∧ count_invocations f ((a.on_sync_timeout (some f)).handle_sync_timeout).effects = 1
      ∧ count_quits ((a.on_sync_timeout (some f)).handle_sync_timeout).effects = 0
      ∧ ((a.on_sync_timeout (some f)).handle_sync_timeout).effects.length = 1
      ∧ ((a.on_sync_timeout (some f)).handle_sync_timeout).actor
          = a.on_sync_timeout (some f) := by
  refine ⟨?_, ?_, ?_, ?_, ?_, rfl, rfl⟩
  · cases h : a.m_sync_timeout_handler <;> simp [local_actor.handle_sync_timeout, h]
  · cases h : a.m_sync_timeout_handler <;>
      simp [local_actor.handle_sync_timeout, h, count_quits]
  · cases h : a.m_sync_timeout_handler <;>
      simp [local_actor.handle_sync_timeout, h, count_quits]
  · simp [local_actor.handle_sync_timeout, local_actor.on_sync_timeout, count_invocations]
  · simp [local_actor.handle_sync_timeout, local_actor.on_sync_timeout, count_quits]

/-- C8: `handle_sync_failure` invokes the handler installed with
`on_sync_failure` exactly once, as its only effect and without `quit`, and
then `has_sync_failure_handler()` is true; it quits, with
`unhandled_sync_failure`, exactly when `has_sync_failure_handler()` is false;
`on_sync_timeout` does not change `has_sync_failure_handler()`. -/
theorem handle_sync_failure_follows_has_handler (a : local_actor) (f : callback)
    (g : Option callback) :
    (a.on_sync_failure (some f)).has_sync_failure_handler = true
      ∧ ((a.on_sync_failure (some f)).handle_sync_failure).effects = [effect.invoke f]
      ∧ count_invocations f ((a.on_sync_failure (some f)).handle_sync_failure).effects = 1
      ∧ count_quits ((a.on_sync_failure (some f)).handle_sync_failure).effects = 0
      ∧ (count_quits (a.handle_sync_failure).effects = 0
        ↔ a.has_sync_failure_handler = true)
      ∧ ((a.handle_sync_failure).effects = [effect.quit exit_reason.unhandled_sync_failure]
        ↔ a.has_sync_failure_handler = false)
      ∧ (count_quits (a.handle_sync_failure).effects = 1
        ↔ a.has_sync_failure_handler = false)
      ∧ (a.on_sync_timeout g).has_sync_failure_handler = a.has_sync_failure_handler := by
  refine ⟨rfl, rfl, ?_, ?_, ?_, ?_, ?_, rfl⟩
  · simp [local_actor.handle_sync_failure, local_actor.on_sync_failure, count_invocations]
  · simp [local_actor.handle_sync_failure, local_actor.on_sync_failure, count_quits]
  · cases h : a.m_sync_failure_handler <;>
      simp [local_actor.handle_sync_failure, local_actor.has_sync_failure_handler, h,
        count_quits]
  · cases h : a.m_sync_failure_handler <;>
      simp [local_actor.handle_sync_failure, local_actor.has_sync_failure_handler, h]
  · cases h : a.m_sync_failure_handler <;>
      simp [local_actor.handle_sync_failure, local_actor.has_sync_failure_handler, h,
        count_quits]

/-- C9 fails on the code: the current element is a synchronous request
(sequence number 1), for which the comment above `get_response_id` says
"returns 0", and `get_response_id` returns its response id, which is not the
zero message id. -/
theorem get_response_id_of_request_not_zero :
    ({ seq := 1, priority := 0, kind := message_kind.request } : message_id).is_request = true
      ∧ ({ sample_actor with
            m_current_element := some
              { sender := some 2,
                mid := { seq := 1, priority := 0, kind := message_kind.request },
                msg := [41] } } : local_actor).get_response_id
          = some { seq := 1, priority := 0, kind := message_kind.response }
      ∧ ({ sample_actor with
            m_current_element := some
              { sender := some 2,
                mid := { seq := 1, priority := 0, kind := message_kind.request },
                msg := [41] } } : local_actor).get_response_id
          ≠ some message_id.zero := by
  decide

/-- The value of `get_response_id` for every current element `e`: the zero
message id exactly when `e.mid.is_request()` is false, so for every
asynchronous message and every response, and `e.mid.response_id()` exactly when
it is true. -/
theorem get_response_id_zero_iff_not_request (a : local_actor) (e : mailbox_element) :
    (({ a with m_current_element := some e } : local_actor).get_response_id
          = some message_id.zero
        ↔ e.mid.is_request = false)
      ∧ (({ a with m_current_element := some e } : local_actor).get_response_id
          = some e.mid.response_id
        ↔ e.mid.is_request = true)
      ∧ (e.mid.is_request = false
        ↔ e.mid.kind = message_kind.asynchronous ∨ e.mid.kind = message_kind.response) := by
  obtain ⟨sender, ⟨seq, priority, kind⟩, msg⟩ := e
  cases kind <;>
    simp [local_actor.get_response_id, message_id.is_request, message_id.response_id,
      message_id.zero]

/-- C10: for every actor state, `has_behavior()` is false exactly when the
behavior stack is empty and there are no pending responses. -/
theorem has_behavior_false_iff_quiescent (a : local_actor) :
    a.has_behavior = false ↔ a.m_bhvr_stack = [] ∧ a.m_pending_responses = [] := by
  cases hs : a.m_bhvr_stack <;> cases hr : a.m_pending_responses <;>
    simp [local_actor.has_behavior, hs, hr]

end caf

namespace cppa

/-- An `intptr_t` value is zero exactly when the integer it holds is a multiple
of `2 ^ w`. -/
theorem intptr_t_eq_zero_iff (w : Nat) (z : Int) :
    intptr_t w z = 0 ↔ ((2 ^ w : Nat) : Int) ∣ z := by
  unfold intptr_t
  constructor
  · intro h
    have h2 : Int.bmod z (2 ^ w) % ((2 ^ w : Nat) : Int) = z % ((2 ^ w : Nat) : Int) :=
      Int.bmod_emod
    rw [h] at h2
    exact Int.dvd_of_emod_eq_zero (by simpa using h2.symm)
  · intro h
    rw [← Int.emod_bmod, Int.emod_eq_zero_of_dvd h]
    simp

/-- The result of `compare_impl` is the difference of the two addresses, held in
an `intptr_t`. -/
theorem compare_impl_eq (w : Nat) (lhs rhs : pointer w) :
    compare_impl w lhs rhs = intptr_t w ((lhs.val : Int) - (rhs.val : Int)) := by
  simp [compare_impl, reinterpret_cast, intptr_t, Int.bmod_sub_bmod_congr]

/-- Two naturals below `m` whose difference is a multiple of `m` are equal. -/
theorem eq_of_dvd_sub_of_lt (m l r : Nat) (hl : l < m) (hr : r < m)
    (h : (m : Int) ∣ (l : Int) - (r : Int)) : l = r := by
  have h0 : (l : Int) - (r : Int) = 0 := by
    apply Int.eq_zero_of_abs_lt_dvd h
    rw [abs_lt]
    omega
  omega

/-- The result of `compare_impl` is zero exactly for equal pointers. -/
theorem compare_impl_eq_zero_iff (w : Nat) (lhs rhs : pointer w) :
    compare_impl w lhs rhs = 0 ↔ lhs = rhs := by
  rw [compare_impl_eq, intptr_t_eq_zero_iff]
  constructor
  · intro h
    exact Fin.ext (eq_of_dvd_sub_of_lt (2 ^ w) lhs.val rhs.val lhs.isLt rhs.isLt h)
  · rintro rfl
    simp

/-- An integer within the range of `intptr_t` is held unchanged. -/
theorem intptr_t_of_in_range (w : Nat) (z : Int) (hlo : -((2 ^ w : Nat) : Int) ≤ 2 * z)
    (hhi : 2 * z < ((2 ^ w : Nat) : Int)) : intptr_t w z = z := by
  unfold intptr_t
  have hm : 0 < 2 ^ w := Nat.pos_pow_of_pos w (by decide)
  have hd : ((2 ^ w : Nat) : Int) ∣ Int.bmod z (2 ^ w) - z := Int.dvd_bmod_sub_self
  have h1 : -(((2 ^ w : Nat) : Int) / 2) ≤ Int.bmod z (2 ^ w) := Int.le_bmod hm
  have h2 : Int.bmod z (2 ^ w) < (((2 ^ w : Nat) : Int) + 1) / 2 := Int.bmod_lt hm
  have h0 : Int.bmod z (2 ^ w) - z = 0 := by
    apply Int.eq_zero_of_abs_lt_dvd hd
    rw [abs_lt]
    omega
  omega

/-- For two pointers less than half the address range apart, `compare_impl`
gives their exact difference, so its sign orders them by address. -/
theorem compare_impl_exact_of_near (w : Nat) (lhs rhs : pointer w)
    (h1 : 2 * rhs.val < 2 * lhs.val + 2 ^ w) (h2 : 2 * lhs.val < 2 * rhs.val + 2 ^ w) :
    compare_impl w lhs rhs = (lhs.val : Int) - (rhs.val : Int)
      ∧ (compare_impl w lhs rhs < 0 ↔ lhs < rhs) := by
  have h : compare_impl w lhs rhs = (lhs.val : Int) - (rhs.val : Int) := by
    rw [compare_impl_eq]
    apply intptr_t_of_in_range
    · push_cast
      have := (Nat.cast_lt (α := Int)).mpr h1
      push_cast at this
      omega
    · push_cast
      have := (Nat.cast_lt (α := Int)).mpr h2
      push_cast at this
      omega
  refine ⟨h, ?_⟩
  rw [h, Fin.lt_def]
  omega

/-- C11: for all actor addresses `a` and `b`, `a.compare(b) == 0` exactly when
they hold the same pointer, so exactly when they are the same address; two
invalid addresses compare equal; and the overloads taking an `actor`, an
`actor_addr` and a `local_actor*` give the same result on the same pointer,
each being zero exactly for the pointer of `a`. -/
theorem actor_addr_compare_zero_iff_same_actor (w : Nat) (a b : actor_addr w)
    (other : actor w) (p : pointer w) :
    (a.compare b = 0 ↔ a.m_ptr = b.m_ptr)
      ∧ (a.compare b = 0 ↔ a = b)
      ∧ (actor_addr.invalid w).compare (actor_addr.invalid w) = 0
      ∧ (a.compare (actor_addr.invalid w) = 0 ↔ a.not = true)
      ∧ a.compare_actor other = a.compare (actor_addr.of_actor other)
      ∧ a.compare_local_actor p = a.compare (actor_addr.of_ptr p)
      ∧ a.compare_actor { m_ptr := p } = a.compare_local_actor p
      ∧ (a.compare_actor other = 0 ↔ a.m_ptr = detail.raw_access.get other)
      ∧ (a.compare_local_actor p = 0 ↔ a.m_ptr = p) := by
  refine ⟨compare_impl_eq_zero_iff w _ _, ?_, ?_, ?_, rfl, rfl, rfl,
    compare_impl_eq_zero_iff w _ _, compare_impl_eq_zero_iff w _ _⟩
  · rw [actor_addr.compare, compare_impl_eq_zero_iff]
    cases a
    cases b
    simp
  · rw [actor_addr.compare, compare_impl_eq_zero_iff]
  · rw [actor_addr.compare, compare_impl_eq_zero_iff]
    simp [actor_addr.not, actor_addr.invalid]

/-- C17 fails on the code: with a 32-bit `intptr_t`, the addresses `0x10000000`
and `0x90000000` each compare below the other; and `0x10000000` compares
below `0x60000000`, which compares below `0xB0000000`, while `0x10000000`
compares above `0xB0000000`.  The same happens with 64 bits for the null
address and `0x8000000000000000`. -/
theorem actor_addr_compare_sign_overflow :
    ((actor_addr.of_ptr (⟨0x10000000, by decide⟩ : pointer 32)).compare
          (actor_addr.of_ptr ⟨0x90000000, by decide⟩) < 0
        ∧ (actor_addr.of_ptr (⟨0x90000000, by decide⟩ : pointer 32)).compare
          (actor_addr.of_ptr ⟨0x10000000, by decide⟩) < 0)
      ∧ ((actor_addr.of_ptr (⟨0x10000000, by decide⟩ : pointer 32)).compare
          (actor_addr.of_ptr ⟨0x60000000, by decide⟩) < 0
        ∧ (actor_addr.of_ptr (⟨0x60000000, by decide⟩ : pointer 32)).compare
          (actor_addr.of_ptr ⟨0xB0000000, by decide⟩) < 0
        ∧ 0 < (actor_addr.of_ptr (⟨0x10000000, by decide⟩ : pointer 32)).compare
          (actor_addr.of_ptr ⟨0xB0000000, by decide⟩))
      ∧ ((actor_addr.invalid 64).compare
          (actor_addr.of_ptr ⟨0x8000000000000000, by decide⟩) < 0
        ∧ (actor_addr.of_ptr (⟨0x8000000000000000, by decide⟩ : pointer 64)).compare
          (actor_addr.invalid 64) < 0) := by
  decide

end cppa

namespace caf

/-- C12: a typed response promise wrapping `p` is valid exactly when `p` is;
its `deliver(v)` makes exactly one call of `p.deliver`, with the one-element
message `make_message(v)`; in the `either_or_t` specialisation the one call
passes the message `v.value` as it is. -/
theorem typed_response_promise_forwards (p : response_promise) (v : Nat)
    (e : either_or_t) :
    (typed_response_promise.ctor p).to_bool = p.to_bool
      ∧ (typed_response_promise.ctor p).deliver v
          = [{ promise := p, msg := make_message v }]
      ∧ make_message v = [v]
      ∧ (typed_response_promise_either.ctor p).to_bool = p.to_bool
      ∧ (typed_response_promise_either.ctor p).deliver e
          = [{ promise := p, msg := e.value }] := by
  refine ⟨rfl, rfl, rfl, rfl, rfl⟩

/-- C13: for every valid handle, priority and duration `dr`,
`timed_sync_send_impl` returns what `sync_send_impl` returns for the same
request, the response id of the fresh request id; its effects are those of
`sync_send_impl`, the one enqueue of the request, followed by exactly one
request for a sync-timeout message with duration `dr` and that response id. -/
theorem timed_sync_send_impl_extends_sync_send_impl (a : local_actor)
    (mp : message_priority) (d : Nat) (dr : duration) (x : Nat) (xs : List Nat) :
    (a.timed_sync_send_impl mp { ptr := some d } dr x xs).result
        = (a.sync_send_impl mp { ptr := some d } x xs).result
      ∧ (a.timed_sync_send_impl mp { ptr := some d } dr x xs).result
        = .ok (a.new_request_id mp).1.response_id
      ∧ (a.timed_sync_send_impl mp { ptr := some d } dr x xs).effects
        = (a.sync_send_impl mp { ptr := some d } x xs).effects
            ++ [effect.request_sync_timeout_msg dr (a.new_request_id mp).1.response_id]
      ∧ (a.timed_sync_send_impl mp { ptr := some d } dr x xs).effects
        = [effect.enqueue d
            (mailbox_element.make_joint a.address (a.new_request_id mp).1 x xs) a.host,
           effect.request_sync_timeout_msg dr (a.new_request_id mp).1.response_id]
      ∧ count_timeout_requests
          (a.timed_sync_send_impl mp { ptr := some d } dr x xs).effects = 1
      ∧ count_enqueues (a.timed_sync_send_impl mp { ptr := some d } dr x xs).effects = 1
      ∧ (a.timed_sync_send_impl mp { ptr := some d } dr x xs).actor
        = (a.sync_send_impl mp { ptr := some d } x xs).actor := by
  refine ⟨rfl, rfl, rfl, rfl, rfl, rfl, rfl⟩

/-- C14: with at least one pending response, `get_behavior()` reads the front
of the pending responses and returns its handler, whatever the behavior stack
holds; with no pending responses it returns the back of the stack, which after
a push is the behavior pushed last. -/
theorem get_behavior_pending_front_else_stack_top (a : local_actor) (mid : message_id)
    (b : behavior) (rest : List (message_id × behavior)) (s : List behavior)
    (top : behavior) :
    ({ a with m_pending_responses := (mid, b) :: rest, m_bhvr_stack := s }
        : local_actor).get_behavior
        = { read := container_read.pending_responses_front, value := some b }
      ∧ ({ a with m_pending_responses := [], m_bhvr_stack := s } : local_actor).get_behavior
        = { read := container_read.bhvr_stack_back, value := s.getLast? }
      ∧ ({ a with m_pending_responses := [],
                  m_bhvr_stack := behavior_stack.push_back s top } : local_actor).get_behavior
        = { read := container_read.bhvr_stack_back, value := some top } := by
  refine ⟨rfl, rfl, ?_⟩
  simp [local_actor.get_behavior, behavior_stack.push_back]

/-- C15: `get_behavior()` finds a behavior exactly when `has_behavior()` is
true; it reads the front of the pending responses only when there is one; it
reads the back of an empty stack exactly when `has_behavior()` is false, and
that read is then all it does. -/
theorem get_behavior_defined_iff_has_behavior (a : local_actor) :
    a.get_behavior.value.isSome = a.has_behavior
      ∧ (a.get_behavior.read = container_read.pending_responses_front
        ↔ a.m_pending_responses ≠ [])
      ∧ ((a.get_behavior.read = container_read.bhvr_stack_back ∧ a.m_bhvr_stack = [])
        ↔ a.has_behavior = false)
      ∧ (a.get_behavior = { read := container_read.bhvr_stack_back, value := none }
        ↔ a.has_behavior = false) := by
  cases hs : a.m_bhvr_stack <;> cases hr : a.m_pending_responses <;>
    simp [local_actor.get_behavior, local_actor.has_behavior, hs, hr]

/-- C16: with an invalid destination handle, `sync_send_impl` and
`timed_sync_send_impl` throw `std::invalid_argument` and leave the actor as it
was, `m_last_request_id` included; nothing is enqueued and no sync-timeout
message is requested. -/
theorem invalid_handle_sends_change_nothing (a : local_actor) (mp : message_priority)
    (dr : duration) (x : Nat) (xs : List Nat) :
    (a.sync_send_impl mp { ptr := none } x xs).result
        = .error (exception.invalid_argument ("cannot sync_send to invalid_actor"))
      ∧ (a.sync_send_impl mp { ptr := none } x xs).actor = a
      ∧ (a.sync_send_impl mp { ptr := none } x xs).actor.m_last_request_id
        = a.m_last_request_id
      ∧ (a.sync_send_impl mp { ptr := none } x xs).effects = []
      ∧ (a.timed_sync_send_impl mp { ptr := none } dr x xs).result
        = .error (exception.invalid_argument ("cannot sync_send to invalid_actor"))
      ∧ (a.timed_sync_send_impl mp { ptr := none } dr x xs).actor = a
      ∧ (a.timed_sync_send_impl mp { ptr := none } dr x xs).actor.m_last_request_id
        = a.m_last_request_id
      ∧ (a.timed_sync_send_impl mp { ptr := none } dr x xs).effects = []
      ∧ count_enqueues (a.timed_sync_send_impl mp { ptr := none } dr x xs).effects = 0
      ∧ count_timeout_requests
          (a.timed_sync_send_impl mp { ptr := none } dr x xs).effects = 0 := by
  refine ⟨rfl, rfl, rfl, rfl, rfl, rfl, rfl, rfl, rfl, rfl⟩

end caf
